import Mathlib

/-!
Verification development for the WFM-Family-Stories API layer.

The repository is a Next.js CRUD application over a relational store
(drizzle ORM).  The embedding below models the database as explicit lists
of rows (one list per table of src/unnamed/part_000, the drizzle schema)
and each HTTP route handler as a pure function from a database state, a
session (the authenticated user id, or none) and the request parameters
to a response together with the resulting database state.

Conventions of the embedding:
  - ids (uuid columns) are Nat; freshly generated ids come from a
    counter field nextId of the state, standing for gen_random_uuid();
  - timestamp columns (createdAt, updatedAt, joinedAt, date) are dropped
    except the event date, which the update handler validates; dates are
    Nat;
  - drizzle findFirst / limit 1 queries become List.find? over the row
    list; insert ... returning appends a row; delete filters it out;
  - zod schema checks that are subsumed by the typing of the body
    structures (uuid format, enum membership, boolean defaults) are not
    re-checked; length and positivity checks are kept; the z.string().url()
    format check on the optional media url is abstracted away (no claim
    depends on it);
  - NextResponse.json({error}, {status}) becomes ApiResp.err status msg,
    success responses become ApiResp.ok status (the success payload is
    recoverable from the returned state).
-/

/-- Response of a route handler: a success status (200/201) or an error
status together with the error message string of the handler. -/
inductive ApiResp where
  | ok (status : Nat)
  | err (status : Nat) (msg : String)
deriving DecidableEq

/-- Role column of family_members: enum admin | member. -/
inductive FamRole where
  | admin
  | member
deriving DecidableEq, BEq

/-- Role column of event_contributors: enum owner | editor | viewer. -/
inductive CRole where
  | owner
  | editor
  | viewer
deriving DecidableEq, BEq

/-- Type column of the notifications table. -/
inductive NotifType where
  | comment
  | mediaUpload
  | eventUpdate
  | invitation
  | system
deriving DecidableEq, BEq

/-- Row of the user table (id, email, name; avatar and timestamps dropped). -/
structure UserRow where
  id : Nat
  email : String
  name : String
deriving DecidableEq

/-- Row of the families table (settings jsonb dropped: no handler under
consideration reads it). -/
structure FamilyRow where
  id : Nat
  name : String
  description : Option String
  createdById : Nat
deriving DecidableEq

/-- Row of the family_members junction table. -/
structure FamilyMemberRow where
  id : Nat
  familyId : Nat
  userId : Nat
  role : FamRole
deriving DecidableEq

/-- Row of the events table. -/
structure EventRow where
  id : Nat
  title : String
  description : Option String
  date : Nat
  location : Option String
  familyId : Nat
  createdById : Nat
  eventType : String
  tags : List String
  isPublic : Bool
deriving DecidableEq

/-- Row of the media table. -/
structure MediaRow where
  id : Nat
  eventId : Nat
  uploadedById : Nat
  filename : String
  originalName : String
  mimeType : String
  size : Int
  url : Option String
  altText : Option String
  isPublic : Bool
deriving DecidableEq

/-- Row of the comments table. -/
structure CommentRow where
  id : Nat
  eventId : Nat
  authorId : Nat
  content : String
  parentId : Option Nat
  isEdited : Bool
deriving DecidableEq

/-- Row of the event_contributors junction table. -/
structure ContributorRow where
  id : Nat
  eventId : Nat
  userId : Nat
  role : CRole
  addedById : Nat
  canEdit : Bool
  canDelete : Bool
  canInvite : Bool
deriving DecidableEq

/-- Row of the notifications table. -/
structure NotificationRow where
  id : Nat
  userId : Nat
  type : NotifType
  title : String
  message : String
  referenceId : Option Nat
  referenceType : Option String
  isRead : Bool
deriving DecidableEq

/-- Row of the event_privacy table. -/
structure PrivacyRow where
  id : Nat
  eventId : Nat
  userId : Nat
  canView : Bool
  canEdit : Bool
  canComment : Bool
  canUploadMedia : Bool
deriving DecidableEq

/-- The database state: one list per table of the drizzle schema, plus a
counter supplying fresh ids for inserts. -/
structure DB where
  users : List UserRow
  families : List FamilyRow
  familyMembers : List FamilyMemberRow
  events : List EventRow
  media : List MediaRow
  comments : List CommentRow
  eventContributors : List ContributorRow
  notifications : List NotificationRow
  eventPrivacy : List PrivacyRow
  nextId : Nat
deriving DecidableEq

/-- Replace the event_privacy table of a state, leaving every other table
untouched; used to compare states that differ only in privacy rows. -/
def DB.withPrivacy (db : DB) (p : List PrivacyRow) : DB :=
  { db with eventPrivacy := p }

/-- Executable model of the JavaScript string trim used by the handlers:
drop whitespace characters from both ends (structural recursion over the
character list, so concrete inputs evaluate in the kernel). -/
def jsTrim (s : String) : String :=
  String.mk (((s.data.dropWhile Char.isWhitespace).reverse.dropWhile
    Char.isWhitespace).reverse)

/-- description?.trim() || null of the family and event handlers: a missing
or all-whitespace description is stored as null. -/
def trimOrNone (s : Option String) : Option String :=
  match s with
  | none => none
  | some d => if jsTrim d == "" then none else some (jsTrim d)

/-- Body of POST /api/events/[id]/comments after zod validation typing
(CommentSchema of src/unnamed/part_007). -/
structure CommentBody where
  content : String
  parentId : Option Nat
deriving DecidableEq

/-- CommentSchema check: content between 1 and 1000 characters. -/
def commentBodyValid (body : CommentBody) : Bool :=
  1 ≤ body.content.length && body.content.length ≤ 1000

/-- Body of POST /api/events/[id]/media (MediaUploadSchema of
src/src/app/api/events/[id]/media/route.ts). -/
structure MediaBody where
  filename : String
  originalName : String
  mimeType : String
  size : Int
  url : Option String
  altText : Option String
  isPublic : Bool
deriving DecidableEq

/-- MediaUploadSchema check: nonempty filename, originalName and mimeType,
positive size (the url format check is abstracted away). -/
def mediaBodyValid (body : MediaBody) : Bool :=
  1 ≤ body.filename.length && 1 ≤ body.originalName.length &&
    1 ≤ body.mimeType.length && 0 < body.size

/-- Permission computed by POST /api/events/[id]/comments (part_007 lines
117 to 128): the event creator, or any contributor row for (event, user),
whatever its flags. -/
def commentPostPermission (db : DB) (uid eventId : Nat) (event : EventRow) : Bool :=
  event.createdById == uid ||
    (db.eventContributors.find? (fun c => c.eventId == eventId && c.userId == uid)).isSome

/-- Permission computed by POST /api/events/[id]/media (media route lines
117 to 128): the event creator, or any contributor row for (event, user). -/
def mediaUploadPermission (db : DB) (uid eventId : Nat) (event : EventRow) : Bool :=
  event.createdById == uid ||
    (db.eventContributors.find? (fun c => c.eventId == eventId && c.userId == uid)).isSome

/-- Permission computed by DELETE /api/events/[id]/media (media route lines
192 to 204): the event creator, or a contributor row with canDelete. -/
def mediaDeletePermission (db : DB) (uid eventId : Nat) (event : EventRow) : Bool :=
  event.createdById == uid ||
    (db.eventContributors.find? (fun c =>
      c.eventId == eventId && c.userId == uid && c.canDelete == true)).isSome

/-- Permission computed by POST /api/events/[id]/contributors (route lines
562 to 574): the event creator, or a contributor row with canInvite. -/
def inviteContributorPermission (db : DB) (uid eventId : Nat) (event : EventRow) : Bool :=
  event.createdById == uid ||
    (db.eventContributors.find? (fun c =>
      c.eventId == eventId && c.userId == uid && c.canInvite == true)).isSome

/-- Permission computed by DELETE /api/events/[id]/contributors (route
lines 648 to 660): the event creator, or a contributor row with canInvite. -/
def removeContributorPermission (db : DB) (uid eventId : Nat) (event : EventRow) : Bool :=
  event.createdById == uid ||
    (db.eventContributors.find? (fun c =>
      c.eventId == eventId && c.userId == uid && c.canInvite == true)).isSome

/-- Permission computed by POST and DELETE of the privacy route (lines 337
and 418 of src/src/app/api/events/[id]/route.ts): the event creator only. -/
def privacyManagePermission (uid : Nat) (event : EventRow) : Bool :=
  event.createdById == uid

/-- GET /api/events/[id]/comments of src/unnamed/part_007: session check,
event existence, family membership, then the comment listing (the listed
rows are recoverable from the unchanged state). -/
def commentsGET (db : DB) (session : Option Nat) (eventId : Nat) : ApiResp × DB :=
  match session with
  | none => (ApiResp.err 401 "Unauthorized", db)
  | some uid =>
    match db.events.find? (fun e => e.id == eventId) with
    | none => (ApiResp.err 404 "Event not found", db)
    | some event =>
      if (db.familyMembers.find? (fun m =>
          m.familyId == event.familyId && m.userId == uid)).isSome then
        (ApiResp.ok 200, db)
      else
        (ApiResp.err 403 "Access denied", db)

/-- POST /api/events/[id]/comments of src/unnamed/part_007: session check,
body validation, event existence, family membership, comment permission,
then the insert. -/
def commentsPOST (db : DB) (session : Option Nat) (eventId : Nat)
    (body : CommentBody) : ApiResp × DB :=
  match session with
  | none => (ApiResp.err 401 "Unauthorized", db)
  | some uid =>
    if commentBodyValid body then
      match db.events.find? (fun e => e.id == eventId) with
      | none => (ApiResp.err 404 "Event not found", db)
      | some event =>
        if (db.familyMembers.find? (fun m =>
            m.familyId == event.familyId && m.userId == uid)).isSome then
          if commentPostPermission db uid eventId event then
            (ApiResp.ok 201,
              { db with
                comments := db.comments ++
                  [{ id := db.nextId, eventId := eventId, authorId := uid,
                     content := body.content, parentId := body.parentId,
                     isEdited := false }],
                nextId := db.nextId + 1 })
          else
            (ApiResp.err 403 "Permission denied", db)
        else
          (ApiResp.err 403 "Access denied", db)
    else
      (ApiResp.err 400 "Invalid input", db)

/-- DELETE /api/events/[id]/comments of src/unnamed/part_007: session,
event existence, family membership, comment existence scoped to the event,
then author-or-creator permission, then the delete. -/
def commentsDELETE (db : DB) (session : Option Nat) (eventId commentId : Nat) :
    ApiResp × DB :=
  match session with
  | none => (ApiResp.err 401 "Unauthorized", db)
  | some uid =>
    match db.events.find? (fun e => e.id == eventId) with
    | none => (ApiResp.err 404 "Event not found", db)
    | some event =>
      if (db.familyMembers.find? (fun m =>
          m.familyId == event.familyId && m.userId == uid)).isSome then
        match db.comments.find? (fun c =>
            c.id == commentId && c.eventId == eventId) with
        | none => (ApiResp.err 404 "Comment not found", db)
        | some existingComment =>
          if existingComment.authorId == uid || event.createdById == uid then
            (ApiResp.ok 200,
              { db with comments := db.comments.filter (fun c => !(c.id == commentId)) })
          else
            (ApiResp.err 403 "Permission denied", db)
      else
        (ApiResp.err 403 "Access denied", db)

/-- PUT /api/events/[id]/comments of src/unnamed/part_007: session, content
validation, event existence, family membership, then a lookup of the
comment filtered by id, event AND author; a miss (including the case of an
existing comment of another author) answers 404, a hit updates the content
and sets isEdited. -/
def commentsPUT (db : DB) (session : Option Nat) (eventId commentId : Nat)
    (content : String) : ApiResp × DB :=
  match session with
  | none => (ApiResp.err 401 "Unauthorized", db)
  | some uid =>
    if 1 ≤ content.length && content.length ≤ 1000 then
      match db.events.find? (fun e => e.id == eventId) with
      | none => (ApiResp.err 404 "Event not found", db)
      | some event =>
        if (db.familyMembers.find? (fun m =>
            m.familyId == event.familyId && m.userId == uid)).isSome then
          match db.comments.find? (fun c =>
              c.id == commentId && c.eventId == eventId && c.authorId == uid) with
          | none => (ApiResp.err 404 "Comment not found or access denied", db)
          | some _ =>
            (ApiResp.ok 200,
              { db with comments := db.comments.map (fun c =>
                  if c.id == commentId then
                    { c with content := content, isEdited := true }
                  else c) })
        else
          (ApiResp.err 403 "Access denied", db)
    else
      (ApiResp.err 400 "Invalid input", db)

/-- GET /api/events/[id]/media: session, event existence, family
membership, then the media listing. -/
def mediaGET (db : DB) (session : Option Nat) (eventId : Nat) : ApiResp × DB :=
  match session with
  | none => (ApiResp.err 401 "Unauthorized", db)
  | some uid =>
    match db.events.find? (fun e => e.id == eventId) with
    | none => (ApiResp.err 404 "Event not found", db)
    | some event =>
      if (db.familyMembers.find? (fun m =>
          m.familyId == event.familyId && m.userId == uid)).isSome then
        (ApiResp.ok 200, db)
      else
        (ApiResp.err 403 "Access denied", db)

/-- POST /api/events/[id]/media: session, body validation, event
existence, family membership, upload permission, then the insert. -/
def mediaPOST (db : DB) (session : Option Nat) (eventId : Nat)
    (body : MediaBody) : ApiResp × DB :=
  match session with
  | none => (ApiResp.err 401 "Unauthorized", db)
  | some uid =>
    if mediaBodyValid body then
      match db.events.find? (fun e => e.id == eventId) with
      | none => (ApiResp.err 404 "Event not found", db)
      | some event =>
        if (db.familyMembers.find? (fun m =>
            m.familyId == event.familyId && m.userId == uid)).isSome then
          if mediaUploadPermission db uid eventId event then
            (ApiResp.ok 201,
              { db with
                media := db.media ++
                  [{ id := db.nextId, eventId := eventId, uploadedById := uid,
                     filename := body.filename, originalName := body.originalName,
                     mimeType := body.mimeType, size := body.size,
                     url := body.url, altText := body.altText,
                     isPublic := body.isPublic }],
                nextId := db.nextId + 1 })
          else
            (ApiResp.err 403 "Permission denied", db)
        else
          (ApiResp.err 403 "Access denied", db)
    else
      (ApiResp.err 400 "Invalid input", db)

/-- DELETE /api/events/[id]/media: session, event existence, family
membership, then the delete permission (creator or canDelete contributor;
the uploader is not consulted), and only after that the existence check of
the media row itself, then the delete. -/
def mediaDELETE (db : DB) (session : Option Nat) (eventId mediaId : Nat) :
    ApiResp × DB :=
  match session with
  | none => (ApiResp.err 401 "Unauthorized", db)
  | some uid =>
    match db.events.find? (fun e => e.id == eventId) with
    | none => (ApiResp.err 404 "Event not found", db)
    | some event =>
      if (db.familyMembers.find? (fun m =>
          m.familyId == event.familyId && m.userId == uid)).isSome then
        if mediaDeletePermission db uid eventId event then
          match db.media.find? (fun m =>
              m.id == mediaId && m.eventId == eventId) with
          | none => (ApiResp.err 404 "Media not found", db)
          | some _ =>
            (ApiResp.ok 200,
              { db with media := db.media.filter (fun m => !(m.id == mediaId)) })
        else
          (ApiResp.err 403 "Permission denied", db)
      else
        (ApiResp.err 403 "Access denied", db)

/-- Body of POST /api/events/[id]/contributors after zod typing
(EventContributorSchema, every field check subsumed by the types). -/
structure ContributorBody where
  userId : Nat
  role : CRole
  canEdit : Bool
  canDelete : Bool
  canInvite : Bool
deriving DecidableEq

/-- Body of POST of the privacy route after zod typing
(PrivacySettingsSchema, every field check subsumed by the types). -/
structure PrivacyBody where
  userId : Nat
  canView : Bool
  canEdit : Bool
  canComment : Bool
  canUploadMedia : Bool
deriving DecidableEq

/-- GET /api/events/[id]/contributors: session, event existence, family
membership, then the contributor listing. -/
def contributorsGET (db : DB) (session : Option Nat) (eventId : Nat) :
    ApiResp × DB :=
  match session with
  | none => (ApiResp.err 401 "Unauthorized", db)
  | some uid =>
    match db.events.find? (fun e => e.id == eventId) with
    | none => (ApiResp.err 404 "Event not found", db)
    | some event =>
      if (db.familyMembers.find? (fun m =>
          m.familyId == event.familyId && m.userId == uid)).isSome then
        (ApiResp.ok 200, db)
      else
        (ApiResp.err 403 "Access denied", db)

/-- POST /api/events/[id]/contributors: session, event existence, family
membership, invite permission, duplicate check (409), then the insert. -/
def contributorsPOST (db : DB) (session : Option Nat) (eventId : Nat)
    (body : ContributorBody) : ApiResp × DB :=
  match session with
  | none => (ApiResp.err 401 "Unauthorized", db)
  | some uid =>
    match db.events.find? (fun e => e.id == eventId) with
    | none => (ApiResp.err 404 "Event not found", db)
    | some event =>
      if (db.familyMembers.find? (fun m =>
          m.familyId == event.familyId && m.userId == uid)).isSome then
        if inviteContributorPermission db uid eventId event then
          match db.eventContributors.find? (fun c =>
              c.eventId == eventId && c.userId == body.userId) with
          | some _ => (ApiResp.err 409 "User is already a contributor", db)
          | none =>
            (ApiResp.ok 201,
              { db with
                eventContributors := db.eventContributors ++
                  [{ id := db.nextId, eventId := eventId, userId := body.userId,
                     role := body.role, addedById := uid, canEdit := body.canEdit,
                     canDelete := body.canDelete, canInvite := body.canInvite }],
                nextId := db.nextId + 1 })
        else
          (ApiResp.err 403 "Permission denied", db)
      else
        (ApiResp.err 403 "Access denied", db)

/-- DELETE /api/events/[id]/contributors: session, event existence, family
membership, remove permission (creator or canInvite contributor), and only
for users who pass that gate the hard rule refusing removal of the event
creator, then the delete. -/
def contributorsDELETE (db : DB) (session : Option Nat) (eventId targetId : Nat) :
    ApiResp × DB :=
  match session with
  | none => (ApiResp.err 401 "Unauthorized", db)
  | some uid =>
    match db.events.find? (fun e => e.id == eventId) with
    | none => (ApiResp.err 404 "Event not found", db)
    | some event =>
      if (db.familyMembers.find? (fun m =>
          m.familyId == event.familyId && m.userId == uid)).isSome then
        if removeContributorPermission db uid eventId event then
          if event.createdById == targetId then
            (ApiResp.err 400 "Cannot remove event creator", db)
          else
            (ApiResp.ok 200,
              { db with eventContributors := db.eventContributors.filter (fun c =>
                  !(c.eventId == eventId && c.userId == targetId)) })
        else
          (ApiResp.err 403 "Permission denied", db)
      else
        (ApiResp.err 403 "Access denied", db)

/-- GET of the privacy route: session, event existence, family membership,
then the privacy-settings listing. -/
def privacyGET (db : DB) (session : Option Nat) (eventId : Nat) : ApiResp × DB :=
  match session with
  | none => (ApiResp.err 401 "Unauthorized", db)
  | some uid =>
    match db.events.find? (fun e => e.id == eventId) with
    | none => (ApiResp.err 404 "Event not found", db)
    | some event =>
      if (db.familyMembers.find? (fun m =>
          m.familyId == event.familyId && m.userId == uid)).isSome then
        (ApiResp.ok 200, db)
      else
        (ApiResp.err 403 "Access denied", db)

/-- POST of the privacy route: session, event existence, family
membership, the creator-only permission, then an upsert of the (event,
user) privacy row: update (200) when one exists, insert (201) otherwise. -/
def privacyPOST (db : DB) (session : Option Nat) (eventId : Nat)
    (body : PrivacyBody) : ApiResp × DB :=
  match session with
  | none => (ApiResp.err 401 "Unauthorized", db)
  | some uid =>
    match db.events.find? (fun e => e.id == eventId) with
    | none => (ApiResp.err 404 "Event not found", db)
    | some event =>
      if (db.familyMembers.find? (fun m =>
          m.familyId == event.familyId && m.userId == uid)).isSome then
        if privacyManagePermission uid event then
          match db.eventPrivacy.find? (fun p =>
              p.eventId == eventId && p.userId == body.userId) with
          | some existingSettings =>
            (ApiResp.ok 200,
              { db with eventPrivacy := db.eventPrivacy.map (fun p =>
                  if p.id == existingSettings.id then
                    { p with
                      canView := body.canView,
                      canEdit := body.canEdit,
                      canComment := body.canComment,
                      canUploadMedia := body.canUploadMedia }
                  else p) })
          | none =>
            (ApiResp.ok 201,
              { db with
                eventPrivacy := db.eventPrivacy ++
                  [{ id := db.nextId, eventId := eventId, userId := body.userId,
                     canView := body.canView, canEdit := body.canEdit,
                     canComment := body.canComment,
                     canUploadMedia := body.canUploadMedia }],
                nextId := db.nextId + 1 })
        else
          (ApiResp.err 403 "Permission denied", db)
      else
        (ApiResp.err 403 "Access denied", db)

/-- DELETE of the privacy route: session, event existence, family
membership, the creator-only permission, existence of the (event, user)
privacy row (404), then the delete. -/
def privacyDELETE (db : DB) (session : Option Nat) (eventId targetId : Nat) :
    ApiResp × DB :=
  match session with
  | none => (ApiResp.err 401 "Unauthorized", db)
  | some uid =>
    match db.events.find? (fun e => e.id == eventId) with
    | none => (ApiResp.err 404 "Event not found", db)
    | some event =>
      if (db.familyMembers.find? (fun m =>
          m.familyId == event.familyId && m.userId == uid)).isSome then
        if privacyManagePermission uid event then
          match db.eventPrivacy.find? (fun p =>
              p.eventId == eventId && p.userId == targetId) with
          | none => (ApiResp.err 404 "Privacy settings not found", db)
          | some existingSettings =>
            (ApiResp.ok 200,
              { db with eventPrivacy := db.eventPrivacy.filter (fun p =>
                  !(p.id == existingSettings.id)) })
        else
          (ApiResp.err 403 "Permission denied", db)
      else
        (ApiResp.err 403 "Access denied", db)

/-- Body of PUT /api/events/[id] (the handler destructures title,
description, date, location, eventType, tags from the json body). -/
structure EventUpdateBody where
  title : String
  description : Option String
  date : Option Nat
  location : Option String
  eventType : Option String
  tags : Option (List String)
deriving DecidableEq

/-- GET /api/events/[id] of src/src/app/api/events/[id]/route.ts: a single
select joining events, families, users (the creator) and familyMembers,
filtered by the event id and the acting user id; an empty join result,
including the case of a user with no membership row in the family, answers
404 Event not found. -/
def eventGET (db : DB) (session : Option Nat) (eventId : Nat) : ApiResp × DB :=
  match session with
  | none => (ApiResp.err 401 "Unauthorized", db)
  | some uid =>
    match db.events.find? (fun e => e.id == eventId) with
    | none => (ApiResp.err 404 "Event not found", db)
    | some event =>
      if (db.families.find? (fun f => f.id == event.familyId)).isSome &&
          (db.users.find? (fun u => u.id == event.createdById)).isSome &&
          (db.familyMembers.find? (fun m =>
            m.familyId == event.familyId && m.userId == uid)).isSome then
        (ApiResp.ok 200, db)
      else
        (ApiResp.err 404 "Event not found", db)

/-- PUT /api/events/[id]: session, title and date validation, then a join
of events, families and familyMembers filtered by event id and acting user
(an empty result, in particular a non-member, answers 404), then the
creator-or-family-admin check, then the update. -/
def eventPUT (db : DB) (session : Option Nat) (eventId : Nat)
    (body : EventUpdateBody) : ApiResp × DB :=
  match session with
  | none => (ApiResp.err 401 "Unauthorized", db)
  | some uid =>
    if jsTrim body.title == "" then
      (ApiResp.err 400 "Event title is required", db)
    else
      match body.date with
      | none => (ApiResp.err 400 "Event date is required", db)
      | some newDate =>
        match db.events.find? (fun e => e.id == eventId) with
        | none => (ApiResp.err 404 "Event not found", db)
        | some event =>
          if (db.families.find? (fun f => f.id == event.familyId)).isSome &&
              (db.familyMembers.find? (fun m =>
                m.familyId == event.familyId && m.userId == uid)).isSome then
            match db.familyMembers.find? (fun m =>
                m.familyId == event.familyId && m.userId == uid) with
            | none => (ApiResp.err 403 "You do not have permission to update this event", db)
            | some userRole =>
              if !(event.createdById == uid) && !(userRole.role == FamRole.admin) then
                (ApiResp.err 403 "You do not have permission to update this event", db)
              else
                (ApiResp.ok 200,
                  { db with events := db.events.map (fun e =>
                      if e.id == eventId then
                        { e with
                          title := jsTrim body.title,
                          description := trimOrNone body.description,
                          date := newDate,
                          location := trimOrNone body.location,
                          eventType :=
                            match body.eventType with
                            | none => "other"
                            | some t => if t == "" then "other" else t,
                          tags := body.tags.getD [] }
                      else e) })
          else
            (ApiResp.err 404 "Event not found", db)

/-- DELETE /api/events/[id]: session, the same join-based existence and
membership check as the update (empty answers 404), the creator-or-admin
check, then the delete of the event with the cascades of the schema
(media, comments, contributors and privacy rows of the event go with it). -/
def eventDELETE (db : DB) (session : Option Nat) (eventId : Nat) : ApiResp × DB :=
  match session with
  | none => (ApiResp.err 401 "Unauthorized", db)
  | some uid =>
    match db.events.find? (fun e => e.id == eventId) with
    | none => (ApiResp.err 404 "Event not found", db)
    | some event =>
      if (db.families.find? (fun f => f.id == event.familyId)).isSome &&
          (db.familyMembers.find? (fun m =>
            m.familyId == event.familyId && m.userId == uid)).isSome then
        match db.familyMembers.find? (fun m =>
            m.familyId == event.familyId && m.userId == uid) with
        | none => (ApiResp.err 403 "You do not have permission to delete this event", db)
        | some userRole =>
          if !(event.createdById == uid) && !(userRole.role == FamRole.admin) then
            (ApiResp.err 403 "You do not have permission to delete this event", db)
          else
            (ApiResp.ok 200,
              { db with
                events := db.events.filter (fun e => !(e.id == eventId)),
                media := db.media.filter (fun m => !(m.eventId == eventId)),
                comments := db.comments.filter (fun c => !(c.eventId == eventId)),
                eventContributors := db.eventContributors.filter (fun c =>
                  !(c.eventId == eventId)),
                eventPrivacy := db.eventPrivacy.filter (fun p =>
                  !(p.eventId == eventId)) })
      else
        (ApiResp.err 404 "Event not found", db)

/-- POST /api/families of src/unnamed/part_010 lines 40 to 83: session,
name validation, then an insert of the family row followed by a separate
insert of the creator admin membership row, with no transaction around the
pair.  The parameter memberInsertOk models whether the second insert
succeeds; when it fails (throws), the handler answers 500 from its catch
block, but the already-performed family insert stays in the state. -/
def familiesPOST (db : DB) (session : Option Nat) (name : String)
    (description : Option String) (memberInsertOk : Bool) : ApiResp × DB :=
  match session with
  | none => (ApiResp.err 401 "Unauthorized", db)
  | some uid =>
    if jsTrim name == "" then
      (ApiResp.err 400 "Family name is required", db)
    else
      let newFamily : FamilyRow :=
        { id := db.nextId, name := jsTrim name,
          description := trimOrNone description, createdById := uid }
      let db1 : DB :=
        { db with families := db.families ++ [newFamily], nextId := db.nextId + 1 }
      if memberInsertOk then
        (ApiResp.ok 201,
          { db1 with
            familyMembers := db1.familyMembers ++
              [{ id := db1.nextId, familyId := newFamily.id, userId := uid,
                 role := FamRole.admin }],
            nextId := db1.nextId + 1 })
      else
        (ApiResp.err 500 "Internal server error", db1)

/-- PUT /api/families/[id] of src/unnamed/part_010 lines 138 to 192: the
admin-membership check runs first and is the only gate; the handler never
queries the families table for existence, so a family id with no admin
membership row for the acting user answers 403 whether or not a family row
exists.  After the gate, name validation, then the update. -/
def familyPUT (db : DB) (session : Option Nat) (familyId : Nat)
    (name : String) (description : Option String) : ApiResp × DB :=
  match session with
  | none => (ApiResp.err 401 "Unauthorized", db)
  | some uid =>
    if (db.familyMembers.find? (fun m =>
        m.familyId == familyId && m.userId == uid &&
          m.role == FamRole.admin)).isSome then
      if jsTrim name == "" then
        (ApiResp.err 400 "Family name is required", db)
      else
        (ApiResp.ok 200,
          { db with families := db.families.map (fun f =>
              if f.id == familyId then
                { f with name := jsTrim name, description := trimOrNone description }
              else f) })
    else
      (ApiResp.err 403 "Unauthorized to update family", db)

/-- DELETE /api/families/[id] of src/unnamed/part_010 lines 195 to 232:
the admin-membership check is the only gate (no family existence check),
then the delete of the family row with the cascades of the schema
(members, events, and the event-owned rows). -/
def familyDELETE (db : DB) (session : Option Nat) (familyId : Nat) : ApiResp × DB :=
  match session with
  | none => (ApiResp.err 401 "Unauthorized", db)
  | some uid =>
    if (db.familyMembers.find? (fun m =>
        m.familyId == familyId && m.userId == uid &&
          m.role == FamRole.admin)).isSome then
      (ApiResp.ok 200,
        { db with
          families := db.families.filter (fun f => !(f.id == familyId)),
          familyMembers := db.familyMembers.filter (fun m =>
            !(m.familyId == familyId)),
          events := db.events.filter (fun e => !(e.familyId == familyId)),
          media := db.media.filter (fun m =>
            !(db.events.any (fun e => e.id == m.eventId && e.familyId == familyId))),
          comments := db.comments.filter (fun c =>
            !(db.events.any (fun e => e.id == c.eventId && e.familyId == familyId))),
          eventContributors := db.eventContributors.filter (fun c =>
            !(db.events.any (fun e => e.id == c.eventId && e.familyId == familyId))),
          eventPrivacy := db.eventPrivacy.filter (fun p =>
            !(db.events.any (fun e => e.id == p.eventId && e.familyId == familyId))) })
    else
      (ApiResp.err 403 "Unauthorized to delete family", db)

/-- Body of POST /api/notifications after zod typing (NotificationSchema
of src/unnamed/part_009; the userId of the stored row is NOT part of the
body). -/
structure NotifBody where
  type : NotifType
  title : String
  message : String
  referenceId : Option Nat
  referenceType : Option String
deriving DecidableEq

/-- NotificationSchema checks kept beyond typing: title between 1 and 100
characters, message between 1 and 500 characters. -/
def notifBodyValid (body : NotifBody) : Bool :=
  1 ≤ body.title.length && body.title.length ≤ 100 &&
    1 ≤ body.message.length && body.message.length ≤ 500

/-- POST /api/notifications of src/unnamed/part_009 lines 49 to 87:
session, body validation, then the insert; the userId column of the new
row is taken from the session, never from the body. -/
def notificationsPOST (db : DB) (session : Option Nat) (body : NotifBody) :
    ApiResp × DB :=
  match session with
  | none => (ApiResp.err 401 "Unauthorized", db)
  | some uid =>
    if notifBodyValid body then
      (ApiResp.ok 201,
        { db with
          notifications := db.notifications ++
            [{ id := db.nextId, userId := uid, type := body.type,
               title := body.title, message := body.message,
               referenceId := body.referenceId,
               referenceType := body.referenceType, isRead := false }],
          nextId := db.nextId + 1 })
    else
      (ApiResp.err 400 "Invalid input", db)

/-! ### Concrete fixtures

A small family with one event, used by the concrete counterexamples and
witnesses below: family 1 created by user 2, event 10 created by user 2;
user 3 is a plain member who uploaded media 20 and holds a contributor row
with canEdit but neither canDelete nor canInvite; user 5 is a member whose
contributor row has every flag; comment 30 was written by user 2. -/

/-- User 2, the creator of family 1 and event 10. -/
def u2 : UserRow := { id := 2, email := "a@x", name := "A" }

/-- User 3, a plain member of family 1. -/
def u3 : UserRow := { id := 3, email := "b@x", name := "B" }

/-- Family 1, created by user 2. -/
def famA : FamilyRow := { id := 1, name := "Fam", description := none, createdById := 2 }

/-- Admin membership of user 2 in family 1. -/
def m2 : FamilyMemberRow := { id := 100, familyId := 1, userId := 2, role := FamRole.admin }

/-- Plain membership of user 3 in family 1. -/
def m3 : FamilyMemberRow := { id := 101, familyId := 1, userId := 3, role := FamRole.member }

/-- Plain membership of user 5 in family 1. -/
def m5 : FamilyMemberRow := { id := 102, familyId := 1, userId := 5, role := FamRole.member }

/-- Event 10 of family 1, created by user 2. -/
def evE : EventRow :=
  { id := 10, title := "E", description := none, date := 0, location := none,
    familyId := 1, createdById := 2, eventType := "other", tags := [],
    isPublic := false }

/-- Media 20 of event 10, uploaded by user 3. -/
def med3 : MediaRow :=
  { id := 20, eventId := 10, uploadedById := 3, filename := "f",
    originalName := "f", mimeType := "image/png", size := 5, url := none,
    altText := none, isPublic := false }

/-- Comment 30 on event 10, authored by user 2. -/
def com2 : CommentRow :=
  { id := 30, eventId := 10, authorId := 2, content := "hello", parentId := none,
    isEdited := false }

/-- Contributor row of user 3 on event 10: canEdit only. -/
def c3row : ContributorRow :=
  { id := 300, eventId := 10, userId := 3, role := CRole.editor, addedById := 2,
    canEdit := true, canDelete := false, canInvite := false }

/-- Contributor row of user 5 on event 10: canEdit, canDelete and canInvite. -/
def c5row : ContributorRow :=
  { id := 301, eventId := 10, userId := 5, role := CRole.editor, addedById := 2,
    canEdit := true, canDelete := true, canInvite := true }

/-- The base fixture state. -/
def dbBase : DB :=
  { users := [u2, u3], families := [famA], familyMembers := [m2, m3, m5],
    events := [evE], media := [med3], comments := [com2],
    eventContributors := [c3row, c5row], notifications := [], eventPrivacy := [],
    nextId := 1000 }

/-- The empty state. -/
def dbEmpty : DB :=
  { users := [], families := [], familyMembers := [], events := [], media := [],
    comments := [], eventContributors := [], notifications := [], eventPrivacy := [],
    nextId := 0 }

/-- A privacy row denying user 3 both commenting and media upload on
event 10. -/
def pDeny : PrivacyRow :=
  { id := 200, eventId := 10, userId := 3, canView := true, canEdit := false,
    canComment := false, canUploadMedia := false }

/-- Contributor row with every flag for user 4 on event 10; user 4 has no
membership row in family 1. -/
def c4crow : ContributorRow :=
  { id := 302, eventId := 10, userId := 4, role := CRole.editor, addedById := 2,
    canEdit := true, canDelete := true, canInvite := true }

/-- Privacy row granting user 4 every capability on event 10. -/
def p4row : PrivacyRow :=
  { id := 201, eventId := 10, userId := 4, canView := true, canEdit := true,
    canComment := true, canUploadMedia := true }

/-- The base state extended with contributor and privacy rows for the
non-member user 4. -/
def db4 : DB := { dbBase with eventContributors := [c3row, c5row, c4crow], eventPrivacy := [p4row] }

/-! ### Helper lemmas -/

/-- Replacing the privacy table leaves the events table unchanged. -/
theorem withPrivacy_events (db : DB) (p : List PrivacyRow) :
    (db.withPrivacy p).events = db.events := rfl

/-- Replacing the privacy table leaves the family_members table unchanged. -/
theorem withPrivacy_familyMembers (db : DB) (p : List PrivacyRow) :
    (db.withPrivacy p).familyMembers = db.familyMembers := rfl

/-- Replacing the privacy table leaves the event_contributors table
unchanged. -/
theorem withPrivacy_eventContributors (db : DB) (p : List PrivacyRow) :
    (db.withPrivacy p).eventContributors = db.eventContributors := rfl

/-- The response of the comment-post handler does not depend on the
privacy table: the handler never queries event_privacy. -/
theorem commentsPOST_resp_ignores_privacy (db : DB) (p : List PrivacyRow)
    (session : Option Nat) (eventId : Nat) (body : CommentBody) :
    (commentsPOST (db.withPrivacy p) session eventId body).1 =
      (commentsPOST db session eventId body).1 := by
  cases session with
  | none => rfl
  | some uid =>
    simp only [commentsPOST, commentPostPermission, withPrivacy_events,
      withPrivacy_familyMembers, withPrivacy_eventContributors]
    split
    · split
      · rfl
      · split
        · split
          · rfl
          · rfl
        · rfl
    · rfl

/-- The response of the media-upload handler does not depend on the
privacy table: the handler never queries event_privacy. -/
theorem mediaPOST_resp_ignores_privacy (db : DB) (p : List PrivacyRow)
    (session : Option Nat) (eventId : Nat) (body : MediaBody) :
    (mediaPOST (db.withPrivacy p) session eventId body).1 =
      (mediaPOST db session eventId body).1 := by
  cases session with
  | none => rfl
  | some uid =>
    simp only [mediaPOST, mediaUploadPermission, withPrivacy_events,
      withPrivacy_familyMembers, withPrivacy_eventContributors]
    split
    · split
      · rfl
      · split
        · split
          · rfl
          · rfl
        · rfl
    · rfl

/-! ### Claims -/

/-- C1, counterexample: with no family row for id 5 at all (empty state),
updating and deleting family 5 answer 403 forbidden, not a 404 not-found;
and with event 10 present, the non-permitted user 3 asking to delete the
nonexistent media 99 gets 403 Permission denied, not 404 — so the missing
resource is not reported as not found before the permission check, contrary
to the claim. -/
theorem missing_family_and_media_forbidden_cex :
    dbEmpty.families = [] ∧
    familyPUT dbEmpty (some 1) 5 "N" none =
      (ApiResp.err 403 "Unauthorized to update family", dbEmpty) ∧
    familyDELETE dbEmpty (some 1) 5 =
      (ApiResp.err 403 "Unauthorized to delete family", dbEmpty) ∧
    (dbBase.media.find? (fun m => m.id == 99)) = none ∧
    mediaDELETE dbBase (some 3) 10 99 =
      (ApiResp.err 403 "Permission denied", dbBase) := by
  refine ⟨by decide, by decide, by decide, by decide, by decide⟩

/-- C1, amended: the event-scoped handlers do check event existence first
(missing event answers 404 before any permission check), but the family
update and delete handlers run only the admin-membership check and never
consult the families table, so a family id resolving to no family row
answers 403 forbidden whenever the acting user holds no admin membership
row for it; and the media delete handler checks the delete permission
before the media existence check, so a user failing that permission gets
403 whether or not the media row exists. -/
theorem existence_vs_permission_order :
    (∀ (db : DB) (uid familyId : Nat) (name : String) (desc : Option String),
      db.families.find? (fun f => f.id == familyId) = none →
      db.familyMembers.find? (fun m =>
        m.familyId == familyId && m.userId == uid && m.role == FamRole.admin) = none →
      familyPUT db (some uid) familyId name desc =
        (ApiResp.err 403 "Unauthorized to update family", db) ∧
      familyDELETE db (some uid) familyId =
        (ApiResp.err 403 "Unauthorized to delete family", db)) ∧
    (∀ (db : DB) (uid eventId mediaId : Nat) (event : EventRow),
      db.events.find? (fun e => e.id == eventId) = some event →
      (db.familyMembers.find? (fun m =>
        m.familyId == event.familyId && m.userId == uid)).isSome = true →
      mediaDeletePermission db uid eventId event = false →
      mediaDELETE db (some uid) eventId mediaId =
        (ApiResp.err 403 "Permission denied", db)) ∧
    (∀ (db : DB) (uid eventId targetId : Nat) (cbody : CommentBody) (pb : PrivacyBody),
      db.events.find? (fun e => e.id == eventId) = none →
      commentBodyValid cbody = true →
      commentsPOST db (some uid) eventId cbody = (ApiResp.err 404 "Event not found", db) ∧
      mediaDELETE db (some uid) eventId targetId = (ApiResp.err 404 "Event not found", db) ∧
      contributorsDELETE db (some uid) eventId targetId = (ApiResp.err 404 "Event not found", db) ∧
      privacyPOST db (some uid) eventId pb = (ApiResp.err 404 "Event not found", db)) := by
  refine ⟨?_, ?_, ?_⟩
  · intro db uid familyId name desc _hfam hmem
    constructor <;> simp [familyPUT, familyDELETE, hmem]
  · intro db uid eventId mediaId event hev hmem hperm
    simp [mediaDELETE, hev, hmem, hperm]
  · intro db uid eventId targetId cbody pb hev hvc
    refine ⟨?_, ?_, ?_, ?_⟩ <;>
      simp [commentsPOST, mediaDELETE, contributorsDELETE, privacyPOST, hev, hvc]

/-- C1, witness for the amended statement at concrete inputs. -/
theorem existence_vs_permission_order_wit :
    (familyPUT dbEmpty (some 1) 5 "N" none =
      (ApiResp.err 403 "Unauthorized to update family", dbEmpty) ∧
     familyDELETE dbEmpty (some 1) 5 =
      (ApiResp.err 403 "Unauthorized to delete family", dbEmpty)) ∧
    mediaDELETE dbBase (some 3) 10 99 = (ApiResp.err 403 "Permission denied", dbBase) ∧
    commentsPOST dbEmpty (some 1) 77 { content := "hi", parentId := none } =
      (ApiResp.err 404 "Event not found", dbEmpty) :=
  ⟨existence_vs_permission_order.1 dbEmpty 1 5 "N" none (by decide) (by decide),
   existence_vs_permission_order.2.1 dbBase 3 10 99 evE (by decide) (by decide) (by decide),
   (existence_vs_permission_order.2.2 dbEmpty 1 77 0 { content := "hi", parentId := none }
     { userId := 6, canView := true, canEdit := false, canComment := true,
       canUploadMedia := true } (by decide) (by decide)).1⟩

/-- C2, counterexample: adding a privacy row that denies user 3 both
commenting and media upload on event 10 changes neither decision — both
actions stay permitted (201) — so the content-action decision does not
consult the privacy registry, contrary to the claim. -/
theorem privacy_override_ignored_cex :
    pDeny.eventId = 10 ∧ pDeny.userId = 3 ∧
    pDeny.canComment = false ∧ pDeny.canUploadMedia = false ∧
    (commentsPOST (dbBase.withPrivacy []) (some 3) 10
      { content := "hi", parentId := none }).1 = ApiResp.ok 201 ∧
    (commentsPOST (dbBase.withPrivacy [pDeny]) (some 3) 10
      { content := "hi", parentId := none }).1 = ApiResp.ok 201 ∧
    (mediaPOST (dbBase.withPrivacy []) (some 3) 10
      { filename := "f", originalName := "f", mimeType := "t", size := 1,
        url := none, altText := none, isPublic := false }).1 = ApiResp.ok 201 ∧
    (mediaPOST (dbBase.withPrivacy [pDeny]) (some 3) 10
      { filename := "f", originalName := "f", mimeType := "t", size := 1,
        url := none, altText := none, isPublic := false }).1 = ApiResp.ok 201 := by
  refine ⟨by decide, by decide, by decide, by decide, by decide, by decide,
    by decide, by decide⟩

/-- C2, amended: the allow/deny decision of every event content action
consults membership, creator identity and the contributor registry only;
the privacy registry (event_privacy) is never read, so for any two states
differing only in their privacy rows the comment-post and media-upload
responses and all content permission checks coincide. -/
theorem content_decision_ignores_privacy (db : DB) (p q : List PrivacyRow)
    (session : Option Nat) (uid eventId : Nat) (event : EventRow)
    (cbody : CommentBody) (mbody : MediaBody) :
    (commentsPOST (db.withPrivacy p) session eventId cbody).1 =
      (commentsPOST (db.withPrivacy q) session eventId cbody).1 ∧
    (mediaPOST (db.withPrivacy p) session eventId mbody).1 =
      (mediaPOST (db.withPrivacy q) session eventId mbody).1 ∧
    commentPostPermission (db.withPrivacy p) uid eventId event =
      commentPostPermission (db.withPrivacy q) uid eventId event ∧
    mediaUploadPermission (db.withPrivacy p) uid eventId event =
      mediaUploadPermission (db.withPrivacy q) uid eventId event ∧
    mediaDeletePermission (db.withPrivacy p) uid eventId event =
      mediaDeletePermission (db.withPrivacy q) uid eventId event ∧
    inviteContributorPermission (db.withPrivacy p) uid eventId event =
      inviteContributorPermission (db.withPrivacy q) uid eventId event :=
  ⟨(commentsPOST_resp_ignores_privacy db p session eventId cbody).trans
     (commentsPOST_resp_ignores_privacy db q session eventId cbody).symm,
   (mediaPOST_resp_ignores_privacy db p session eventId mbody).trans
     (mediaPOST_resp_ignores_privacy db q session eventId mbody).symm,
   rfl, rfl, rfl, rfl⟩

/-- C3: a user who is the creator of the event (and is assumed to pass the
family-membership gate) passes every content-action permission check —
comment, media upload, contributor invite, media delete — with no
contributor or privacy row required: each check short-circuits on
createdById. -/
theorem creator_content_checks (db : DB) (uid eventId : Nat) (event : EventRow)
    (_hmem : (db.familyMembers.find? (fun m =>
      m.familyId == event.familyId && m.userId == uid)).isSome = true)
    (hcreator : event.createdById = uid) :
    commentPostPermission db uid eventId event = true ∧
    mediaUploadPermission db uid eventId event = true ∧
    inviteContributorPermission db uid eventId event = true ∧
    mediaDeletePermission db uid eventId event = true := by
  simp [commentPostPermission, mediaUploadPermission, inviteContributorPermission,
    mediaDeletePermission, hcreator]

/-- C3, witness: user 2, the creator of event 10, passes all four checks
in the fixture state, where user 2 has no contributor or privacy row. -/
theorem creator_content_checks_wit :
    (dbBase.familyMembers.find? (fun m =>
      m.familyId == evE.familyId && m.userId == 2)).isSome = true ∧
    commentPostPermission dbBase 2 10 evE = true ∧
    mediaUploadPermission dbBase 2 10 evE = true ∧
    inviteContributorPermission dbBase 2 10 evE = true ∧
    mediaDeletePermission dbBase 2 10 evE = true :=
  ⟨by decide,
   (creator_content_checks dbBase 2 10 evE (by decide) (by decide)).1,
   (creator_content_checks dbBase 2 10 evE (by decide) (by decide)).2.1,
   (creator_content_checks dbBase 2 10 evE (by decide) (by decide)).2.2.1,
   (creator_content_checks dbBase 2 10 evE (by decide) (by decide)).2.2.2⟩

/-- C4, counterexample: user 4 holds a full contributor row and a full
privacy row on event 10 but no membership row in family 1; reading the
single event answers 404 Event not found, not an access-denied outcome,
contrary to the claim that every event-scoped action answers access
denied. -/
theorem nonmember_event_read_not_found_cex :
    (db4.familyMembers.find? (fun m => m.familyId == 1 && m.userId == 4)) = none ∧
    (db4.eventContributors.find? (fun c =>
      c.eventId == 10 && c.userId == 4)).isSome = true ∧
    (db4.eventPrivacy.find? (fun p =>
      p.eventId == 10 && p.userId == 4)).isSome = true ∧
    eventGET db4 (some 4) 10 = (ApiResp.err 404 "Event not found", db4) := by
  refine ⟨by decide, by decide, by decide, by decide⟩

/-- C4, amended: a user with no membership row in the event family is
denied every event-scoped action regardless of contributor or privacy
rows, but the outcome differs by route: the comments, media, privacy and
contributors handlers answer 403 Access denied, while the single-event
read, update and delete handlers answer 404 Event not found (their
membership check is folded into the lookup join). -/
theorem nonmember_denied (db : DB) (uid eventId commentId mediaId targetId : Nat)
    (event : EventRow) (cbody : CommentBody) (mbody : MediaBody)
    (cb : ContributorBody) (pb : PrivacyBody) (ebody : EventUpdateBody)
    (content : String) (d : Nat)
    (hev : db.events.find? (fun e => e.id == eventId) = some event)
    (hmem : db.familyMembers.find? (fun m =>
      m.familyId == event.familyId && m.userId == uid) = none)
    (hvc : commentBodyValid cbody = true)
    (hvm : mediaBodyValid mbody = true)
    (hvs : (1 ≤ content.length && content.length ≤ 1000) = true)
    (hvt : (jsTrim ebody.title == "") = false)
    (hvd : ebody.date = some d) :
    commentsGET db (some uid) eventId = (ApiResp.err 403 "Access denied", db) ∧
    commentsPOST db (some uid) eventId cbody = (ApiResp.err 403 "Access denied", db) ∧
    commentsPUT db (some uid) eventId commentId content = (ApiResp.err 403 "Access denied", db) ∧
    commentsDELETE db (some uid) eventId commentId = (ApiResp.err 403 "Access denied", db) ∧
    mediaGET db (some uid) eventId = (ApiResp.err 403 "Access denied", db) ∧
    mediaPOST db (some uid) eventId mbody = (ApiResp.err 403 "Access denied", db) ∧
    mediaDELETE db (some uid) eventId mediaId = (ApiResp.err 403 "Access denied", db) ∧
    contributorsGET db (some uid) eventId = (ApiResp.err 403 "Access denied", db) ∧
    contributorsPOST db (some uid) eventId cb = (ApiResp.err 403 "Access denied", db) ∧
    contributorsDELETE db (some uid) eventId targetId = (ApiResp.err 403 "Access denied", db) ∧
    privacyGET db (some uid) eventId = (ApiResp.err 403 "Access denied", db) ∧
    privacyPOST db (some uid) eventId pb = (ApiResp.err 403 "Access denied", db) ∧
    privacyDELETE db (some uid) eventId targetId = (ApiResp.err 403 "Access denied", db) ∧
    eventGET db (some uid) eventId = (ApiResp.err 404 "Event not found", db) ∧
    eventPUT db (some uid) eventId ebody = (ApiResp.err 404 "Event not found", db) ∧
    eventDELETE db (some uid) eventId = (ApiResp.err 404 "Event not found", db) := by
  refine ⟨?_, ?_, ?_, ?_, ?_, ?_, ?_, ?_, ?_, ?_, ?_, ?_, ?_, ?_, ?_, ?_⟩ <;>
    simp [commentsGET, commentsPOST, commentsPUT, commentsDELETE, mediaGET,
      mediaPOST, mediaDELETE, contributorsGET, contributorsPOST,
      contributorsDELETE, privacyGET, privacyPOST, privacyDELETE, eventGET,
      eventPUT, eventDELETE, hev, hmem, hvc, hvm, hvs, hvt, hvd]

/-- C4, witness for the amended statement: the non-member user 4 of the
counterexample state is denied a comment post with 403 and the single-event
read with 404. -/
theorem nonmember_denied_wit :
    commentsPOST db4 (some 4) 10 { content := "hi", parentId := none } =
      (ApiResp.err 403 "Access denied", db4) ∧
    eventGET db4 (some 4) 10 = (ApiResp.err 404 "Event not found", db4) := by
  have h := nonmember_denied db4 4 10 30 20 7 evE { content := "hi", parentId := none }
    { filename := "f", originalName := "f", mimeType := "t", size := 1, url := none,
      altText := none, isPublic := false }
    { userId := 6, role := CRole.editor, canEdit := true, canDelete := false, canInvite := false }
    { userId := 6, canView := true, canEdit := false, canComment := true, canUploadMedia := true }
    { title := "T", description := none, date := some 1, location := none,
      eventType := none, tags := none }
    "hi" 1 (by decide) (by decide) (by decide) (by decide) (by decide) (by decide) (by decide)
  exact ⟨h.2.1, h.2.2.2.2.2.2.2.2.2.2.2.2.2.1⟩

/-- C5, counterexample: user 3 is the uploader of media 20 on event 10 and
a family member, but is neither the event creator nor a canDelete
contributor; the delete request is answered 403 Permission denied, so the
uploader is not permitted to delete their own media, contrary to the
claimed iff. -/
theorem uploader_cannot_delete_media_cex :
    med3.uploadedById = 3 ∧ med3.eventId = 10 ∧
    evE.createdById = 2 ∧
    mediaDELETE dbBase (some 3) 10 20 =
      (ApiResp.err 403 "Permission denied", dbBase) := by
  refine ⟨by decide, by decide, by decide, by decide⟩

/-- C5, amended: deleting a media item is permitted iff the acting user is
the event creator or holds an EventContributor row with canDelete; the
original uploader enjoys no special right; moreover the permission check
runs before the media-existence check, so a denied user is answered 403
even for a missing media id, and a permitted user deletes the row. -/
theorem media_delete_rule (db : DB) (uid eventId mediaId : Nat)
    (event : EventRow) (mrow : MediaRow)
    (hev : db.events.find? (fun e => e.id == eventId) = some event)
    (hmem : (db.familyMembers.find? (fun m =>
      m.familyId == event.familyId && m.userId == uid)).isSome = true) :
    (mediaDeletePermission db uid eventId event = true ↔
      (event.createdById = uid ∨ ∃ c ∈ db.eventContributors,
        c.eventId = eventId ∧ c.userId = uid ∧ c.canDelete = true)) ∧
    (mediaDeletePermission db uid eventId event = false →
      mediaDELETE db (some uid) eventId mediaId =
        (ApiResp.err 403 "Permission denied", db)) ∧
    (mediaDeletePermission db uid eventId event = true →
      db.media.find? (fun m => m.id == mediaId && m.eventId == eventId) = some mrow →
      mediaDELETE db (some uid) eventId mediaId =
        (ApiResp.ok 200,
          { db with media := db.media.filter (fun m => !(m.id == mediaId)) })) := by
  refine ⟨?_, ?_, ?_⟩
  · simp [mediaDeletePermission, List.find?_isSome, and_assoc]
  · intro hperm
    simp [mediaDELETE, hev, hmem, hperm]
  · intro hperm hfind
    simp [mediaDELETE, hev, hmem, hperm, hfind]

/-- C5, witness: the amended rule instantiated at the fixture state for
the uploader user 3, whose permission evaluates to false. -/
theorem media_delete_rule_wit :
    ((mediaDeletePermission dbBase 3 10 evE = true ↔
      (evE.createdById = 3 ∨ ∃ c ∈ dbBase.eventContributors,
        c.eventId = 10 ∧ c.userId = 3 ∧ c.canDelete = true)) ∧
    (mediaDeletePermission dbBase 3 10 evE = false →
      mediaDELETE dbBase (some 3) 10 20 =
        (ApiResp.err 403 "Permission denied", dbBase)) ∧
    (mediaDeletePermission dbBase 3 10 evE = true →
      dbBase.media.find? (fun m => m.id == 20 && m.eventId == 10) = some med3 →
      mediaDELETE dbBase (some 3) 10 20 =
        (ApiResp.ok 200,
          { dbBase with media := dbBase.media.filter (fun m => !(m.id == 20)) }))) ∧
    mediaDeletePermission dbBase 3 10 evE = false :=
  ⟨media_delete_rule dbBase 3 10 20 evE med3 (by decide) (by decide), by decide⟩

/-- C6, counterexample: user 3 is a family member but neither the creator
nor a canInvite contributor of event 10; the request to remove the creator
(user 2) from the contributor registry is answered 403 Permission denied,
not the fixed Cannot remove event creator error, so the fixed error is not
independent of the acting user permissions. -/
theorem remove_creator_unpermitted_actor_cex :
    evE.createdById = 2 ∧
    removeContributorPermission dbBase 3 10 evE = false ∧
    contributorsDELETE dbBase (some 3) 10 2 =
      (ApiResp.err 403 "Permission denied", dbBase) := by
  refine ⟨by decide, by decide, by decide⟩

/-- C6, amended: for acting users who pass the remove-contributor
permission gate (event creator or canInvite contributor), a request to
remove the event creator always fails with the fixed 400 Cannot remove
event creator error and no state change; an acting user who fails the gate
is answered 403 Permission denied before the creator rule is reached. -/
theorem remove_creator_rule (db : DB) (uid eventId targetId : Nat) (event : EventRow)
    (hev : db.events.find? (fun e => e.id == eventId) = some event)
    (hmem : (db.familyMembers.find? (fun m =>
      m.familyId == event.familyId && m.userId == uid)).isSome = true) :
    (removeContributorPermission db uid eventId event = true →
      contributorsDELETE db (some uid) eventId event.createdById =
        (ApiResp.err 400 "Cannot remove event creator", db)) ∧
    (removeContributorPermission db uid eventId event = false →
      contributorsDELETE db (some uid) eventId targetId =
        (ApiResp.err 403 "Permission denied", db)) := by
  constructor
  · intro hperm
    simp [contributorsDELETE, hev, hmem, hperm]
  · intro hperm
    simp [contributorsDELETE, hev, hmem, hperm]

/-- C6, witness: user 5, a canInvite contributor, passes the gate and gets
the fixed error when targeting the creator of event 10. -/
theorem remove_creator_rule_wit :
    ((removeContributorPermission dbBase 5 10 evE = true →
      contributorsDELETE dbBase (some 5) 10 evE.createdById =
        (ApiResp.err 400 "Cannot remove event creator", dbBase)) ∧
    (removeContributorPermission dbBase 5 10 evE = false →
      contributorsDELETE dbBase (some 5) 10 3 =
        (ApiResp.err 403 "Permission denied", dbBase))) ∧
    removeContributorPermission dbBase 5 10 evE = true :=
  ⟨remove_creator_rule dbBase 5 10 3 evE (by decide) (by decide), by decide⟩

/-- C7: family creation is not atomic.  Starting from the empty state,
when the second insert (the creator admin membership) fails after the
family insert succeeded, the handler answers 500 from its catch block but
the state keeps the freshly inserted family row with an empty
family_members table — an orphaned family with no admin, a state the claim
says is unreachable.  When the second insert succeeds, the expected
family-plus-admin pair is produced. -/
theorem family_creation_orphan :
    (familiesPOST dbEmpty (some 1) "Smith" none false).1 =
      ApiResp.err 500 "Internal server error" ∧
    (familiesPOST dbEmpty (some 1) "Smith" none false).2.families =
      [{ id := 0, name := "Smith", description := none, createdById := 1 }] ∧
    (familiesPOST dbEmpty (some 1) "Smith" none false).2.familyMembers = [] ∧
    familiesPOST dbEmpty (some 1) "Smith" none true =
      (ApiResp.ok 201,
        { dbEmpty with
          families := [{ id := 0, name := "Smith", description := none, createdById := 1 }],
          familyMembers := [{ id := 1, familyId := 0, userId := 1, role := FamRole.admin }],
          nextId := 2 }) := by
  refine ⟨by decide, by decide, by decide, by decide⟩

/-- C8, counterexample: user 3 is a family member holding a canEdit
contributor row on event 10, and is neither the author of comment 30 nor
the event creator; the update request is answered 404 Comment not found or
access denied — not the claimed 403 forbidden — with the state unchanged. -/
theorem comment_update_contributor_404_cex :
    com2.authorId = 2 ∧ evE.createdById = 2 ∧
    c3row.userId = 3 ∧ c3row.canEdit = true ∧
    commentsPUT dbBase (some 3) 10 30 "edited" =
      (ApiResp.err 404 "Comment not found or access denied", dbBase) := by
  refine ⟨by decide, by decide, by decide, by decide, by decide⟩

/-- C8, amended: a family member who is not the author of the comment is
denied the comment update — even when holding a canEdit contributor row,
and even when they are the event creator — but the denial is a 404 Comment
not found or access denied (the lookup is scoped to the acting author),
not a 403; the state is unchanged. -/
theorem comment_update_nonauthor (db : DB) (uid eventId commentId : Nat)
    (content : String) (event : EventRow)
    (hev : db.events.find? (fun e => e.id == eventId) = some event)
    (hmem : (db.familyMembers.find? (fun m =>
      m.familyId == event.familyId && m.userId == uid)).isSome = true)
    (hauthor : ∀ c ∈ db.comments, c.id = commentId → c.authorId ≠ uid)
    (hv : (1 ≤ content.length && content.length ≤ 1000) = true) :
    commentsPUT db (some uid) eventId commentId content =
      (ApiResp.err 404 "Comment not found or access denied", db) := by
  have hfind : db.comments.find? (fun c =>
      c.id == commentId && c.eventId == eventId && c.authorId == uid) = none := by
    rw [List.find?_eq_none]
    intro c hc
    have := hauthor c hc
    simp only [Bool.and_eq_true, beq_iff_eq, not_and]
    intro h1 h3
    exact this h1.1 h3
  simp [commentsPUT, hev, hmem, hv, hfind]

/-- C8, witness: the amended statement at the counterexample inputs. -/
theorem comment_update_nonauthor_wit :
    commentsPUT dbBase (some 3) 10 30 "edited" =
      (ApiResp.err 404 "Comment not found or access denied", dbBase) :=
  comment_update_nonauthor dbBase 3 10 30 "edited" evE (by decide) (by decide)
    (by decide) (by decide)

/-- C9: once the privacy-route handlers reach their permission stage (the
event exists and the acting user is a family member), the mutation —
create or update via POST, delete via DELETE — proceeds past the
Permission denied gate iff the acting user is the event creator;
in particular any non-creator, including a canInvite contributor, is
denied. -/
theorem privacy_mutation_creator_only (db : DB) (uid eventId targetId : Nat)
    (event : EventRow) (body : PrivacyBody)
    (hev : db.events.find? (fun e => e.id == eventId) = some event)
    (hmem : (db.familyMembers.find? (fun m =>
      m.familyId == event.familyId && m.userId == uid)).isSome = true) :
    (((privacyPOST db (some uid) eventId body).1 ≠ ApiResp.err 403 "Permission denied")
        ↔ event.createdById = uid) ∧
    (((privacyDELETE db (some uid) eventId targetId).1 ≠ ApiResp.err 403 "Permission denied")
        ↔ event.createdById = uid) := by
  constructor
  · simp only [privacyPOST, hev, hmem, if_true]
    by_cases hc : event.createdById = uid
    · cases hfind : db.eventPrivacy.find? (fun p =>
          p.eventId == eventId && p.userId == body.userId) <;>
        simp [privacyManagePermission, hfind, hc]
    · simp [privacyManagePermission, hc]
  · simp only [privacyDELETE, hev, hmem, if_true]
    by_cases hc : event.createdById = uid
    · cases hfind : db.eventPrivacy.find? (fun p =>
          p.eventId == eventId && p.userId == targetId) <;>
        simp [privacyManagePermission, hfind, hc]
    · simp [privacyManagePermission, hc]

/-- C9, witness: user 5 holds a canInvite contributor row on event 10 and
is still denied privacy mutation, matching the iff (the creator is user 2,
not 5). -/
theorem privacy_mutation_creator_only_wit :
    (((privacyPOST dbBase (some 5) 10
        { userId := 3, canView := true, canEdit := false, canComment := true,
          canUploadMedia := true }).1 ≠ ApiResp.err 403 "Permission denied")
        ↔ evE.createdById = 5) ∧
    (((privacyDELETE dbBase (some 5) 10 3).1 ≠ ApiResp.err 403 "Permission denied")
        ↔ evE.createdById = 5) :=
  privacy_mutation_creator_only dbBase 5 10 3 evE
    { userId := 3, canView := true, canEdit := false, canComment := true,
      canUploadMedia := true } (by decide) (by decide)

/-- C10: every notification created through the creation endpoint belongs
to the authenticated caller: for any state and valid body the handler
answers 201 and appends exactly one row whose userId is the session user
id — the body carries no userId, so no user can target another user. -/
theorem notification_rows_belong_to_caller (db : DB) (uid : Nat) (body : NotifBody)
    (hvalid : notifBodyValid body = true) :
    (notificationsPOST db (some uid) body).1 = ApiResp.ok 201 ∧
    (notificationsPOST db (some uid) body).2.notifications =
      db.notifications ++
        [{ id := db.nextId, userId := uid, type := body.type, title := body.title,
           message := body.message, referenceId := body.referenceId,
           referenceType := body.referenceType, isRead := false }] := by
  simp [notificationsPOST, hvalid]

/-- C10, witness: a concrete creation by user 3 appends a row with
userId 3. -/
theorem notification_rows_belong_to_caller_wit :
    (notificationsPOST dbBase (some 3)
      { type := NotifType.system, title := "t", message := "m",
        referenceId := none, referenceType := none }).1 = ApiResp.ok 201 ∧
    (notificationsPOST dbBase (some 3)
      { type := NotifType.system, title := "t", message := "m",
        referenceId := none, referenceType := none }).2.notifications =
      dbBase.notifications ++
        [{ id := dbBase.nextId, userId := 3, type := NotifType.system, title := "t",
           message := "m", referenceId := none, referenceType := none,
           isRead := false }] :=
  notification_rows_belong_to_caller dbBase 3
    { type := NotifType.system, title := "t", message := "m",
      referenceId := none, referenceType := none } (by decide)
